import Mathlib

/-!
Shallow embedding of the Scan&Snack pre-launch page
(`src/src/app/page.tsx`) and proofs about its observable behavior:
the countdown computation, the waitlist submission flow, the error
message selection of the API client, and the one-shot entrance
animation latch.

JavaScript numbers are IEEE binary64, but every quantity manipulated
here (millisecond differences below 2^53 and small divisors) is exact
in binary64, so the arithmetic is embedded exactly: real-valued
division is `ℚ` division, `Math.floor` is `Int.floor`, and the JS `%`
operator on numbers (truncated remainder, sign of the dividend) is
modelled by `jsRem` below.
-/

namespace ScanAndSnack

/-! ## Countdown timer (`CountdownTimer`, page.tsx lines 54-103) -/

/-- Truncation toward zero on `ℚ`, the rounding used by the JS `%`
operator on numbers. -/
def ratTrunc (x : ℚ) : Int := if 0 ≤ x then ⌊x⌋ else ⌈x⌉

/-- The JS `%` operator on (exact) numbers: `x % y = x - y * trunc (x / y)`,
taking the sign of the dividend. -/
def jsRem (x y : ℚ) : ℚ := x - y * (ratTrunc (x / y) : ℚ)

/-- The `timeLeft` state of `CountdownTimer`. Fields are JS numbers
holding integers, embedded as `Int`. -/
structure TimeLeft where
  days : Int
  hours : Int
  minutes : Int
  seconds : Int
deriving Repr, DecidableEq

/-- The initial `useState` value of `CountdownTimer`: all four fields `0`. -/
def initialTimeLeft : TimeLeft := { days := 0, hours := 0, minutes := 0, seconds := 0 }

/-- `calculateTimeLeft` (page.tsx lines 63-75): `difference` is
`launchDate.getTime() - now.getTime()` in milliseconds; when
`difference > 0` the state is replaced by the four derived fields,
otherwise the state is left unchanged (no `else` branch in the source). -/
def calculateTimeLeft (launchTime nowTime : Int) (timeLeft : TimeLeft) : TimeLeft :=
  let difference : ℚ := (launchTime : ℚ) - (nowTime : ℚ)
  if 0 < difference then
    { days := ⌊difference / (1000 * 60 * 60 * 24)⌋
      hours := ⌊jsRem (difference / (1000 * 60 * 60)) 24⌋
      minutes := ⌊jsRem (difference / 1000 / 60) 60⌋
      seconds := ⌊jsRem (difference / 1000) 60⌋ }
  else timeLeft

/-- The countdown state after a sequence of ticks at the given `now`
instants, starting from the initial all-zero state. -/
def countdownRun (launchTime : Int) (ticks : List Int) : TimeLeft :=
  ticks.foldl (fun st nowTime => calculateTimeLeft launchTime nowTime st) initialTimeLeft

/-- All four countdown fields are nonnegative. -/
def TimeLeft.Nonneg (t : TimeLeft) : Prop :=
  0 ≤ t.days ∧ 0 ≤ t.hours ∧ 0 ≤ t.minutes ∧ 0 ≤ t.seconds

/-! ## Waitlist API client (`addToWaitlist`, page.tsx lines 28-51) -/

/-- The JSON body posted by `addToWaitlist`: exactly the three fields
`email`, `name`, `restaurantName` (the page always passes a string for
`restaurantName`, initialized to `""`). -/
structure WaitlistBody where
  email : String
  name : String
  restaurantName : String
deriving Repr, DecidableEq

/-- One outbound POST request: path, the `Content-Type` header installed
on the axios instance (page.tsx lines 29-34), and the JSON body. -/
structure PostCall where
  path : String
  contentType : String
  body : WaitlistBody
deriving Repr, DecidableEq

/-- How the single request resolves: success, an HTTP error response whose
JSON body may or may not carry a `message` field (`error.response`
present), or a network-level failure with no response. -/
inductive ApiResult where
  | success
  | httpError (message : Option String)
  | networkError
deriving Repr, DecidableEq

/-- JS `||` on a string left operand: the empty string is falsy, so
`m || fallback` is `fallback` when `m = ""`. -/
def jsOrString (m fallback : String) : String := if m = "" then fallback else m

/-- The request issued by `addToWaitlist data` via `api.post` (page.tsx
lines 38-42): `POST /auth/wait-list` with the JSON content type of the instance
and a body of exactly `email`, `name`, `restaurantName`. -/
def addToWaitlistRequest (data : WaitlistBody) : PostCall :=
  { path := "/auth/wait-list"
    contentType := "application/json"
    body := { email := data.email, name := data.name
              restaurantName := data.restaurantName } }

/-- The return/throw behavior of `addToWaitlist` (page.tsx lines 43-50),
with the thrown `Error` modelled as `Except.error` of its message:
on an error response, `error.response.data.message || "Adding to waitlist
failed"` (JS `||`, so an empty or absent `message` yields the fallback);
with no response, the generic connectivity message. -/
def addToWaitlistOutcome : ApiResult → Except String Unit
  | .success => .ok ()
  | .httpError (some m) => .error (jsOrString m "Adding to waitlist failed")
  | .httpError none => .error "Adding to waitlist failed"
  | .networkError =>
      .error "Adding to waitlist failed. Please check your network or try again later."

/-! ## Waitlist form state machine (`PreLaunchClient`, page.tsx lines 160-198
and the form markup at lines 587-651) -/

/-- A transient message surfaced through the toaster. -/
inductive Toast where
  | success (title description : String)
  | error (title description : String)
deriving Repr, DecidableEq

/-- Title of the success toast (page.tsx line 184). -/
def successTitle : String := "You\x27re on the list!"

/-- Description of the success toast (page.tsx line 185). -/
def successDescription : String :=
  "Thank you for joining our waitlist. We\x27ll notify you when we launch."

/-- Title of the failure toast (page.tsx line 192). -/
def failureTitle : String := "Failed to join waitlist"

/-- The component-local state of `PreLaunchClient`, plus the observable
history of POST requests issued and toasts surfaced. -/
structure PageState where
  isSubmitting : Bool
  name : String
  email : String
  restaurantName : String
  subscribed : Bool
  posts : List PostCall
  toasts : List Toast
deriving Repr, DecidableEq

/-- The `useState` initial values: flags `false`, fields `""`, and no
request or toast yet. -/
def initialPageState : PageState :=
  { isSubmitting := false, name := "", email := "", restaurantName := ""
    subscribed := false, posts := [], toasts := [] }

/-- User-visible events: typing into the three inputs, activating the
submit control, and the outstanding request resolving (the continuation of
`handleWaitlistSubmit` after `await addToWaitlist`). -/
inductive Event where
  | setName (value : String)
  | setEmail (value : String)
  | setRestaurantName (value : String)
  | submitClick
  | requestResolved (result : ApiResult)
deriving Repr, DecidableEq

/-- Whether activating the submit control reaches `handleWaitlistSubmit`:
the button is `disabled={isSubmitting}` (line 636), the form is only
rendered while `!subscribed` (line 587), and the `name` and `email` inputs
are `required` (lines 600, 615), so the browser blocks submission while
either is empty. -/
def canSubmit (s : PageState) : Bool :=
  !s.isSubmitting && !s.subscribed && s.name != "" && s.email != ""

/-- One step of the page. `submitClick` runs the first half of
`handleWaitlistSubmit` (lines 174-182): set `isSubmitting`, issue the
POST. `requestResolved` runs the rest (lines 184-197): on success, toast,
clear the three fields, set `subscribed`; on failure, toast the message of
the caught `Error`; in both cases (`finally`) reset `isSubmitting`. The
input events write the corresponding field while the form is rendered. -/
def step (s : PageState) : Event → PageState
  | .setName v => if s.subscribed then s else { s with name := v }
  | .setEmail v => if s.subscribed then s else { s with email := v }
  | .setRestaurantName v => if s.subscribed then s else { s with restaurantName := v }
  | .submitClick =>
      if canSubmit s then
        { s with
          isSubmitting := true
          posts := s.posts ++ [addToWaitlistRequest
            { email := s.email, name := s.name, restaurantName := s.restaurantName }] }
      else s
  | .requestResolved r =>
      if s.isSubmitting then
        match addToWaitlistOutcome r with
        | .ok _ =>
            { s with
              toasts := s.toasts ++ [Toast.success successTitle successDescription]
              email := ""
              name := ""
              restaurantName := ""
              subscribed := true
              isSubmitting := false }
        | .error msg =>
            { s with
              toasts := s.toasts ++ [Toast.error failureTitle msg]
              isSubmitting := false }
      else s

/-- A form state on which the submit control is active. -/
def exampleState : PageState :=
  { isSubmitting := false, name := "Jane Doe", email := "jane@example.com"
    restaurantName := "", subscribed := false, posts := [], toasts := [] }

/-! ## One-shot entrance animation (`AnimatedSection` page.tsx lines
106-123, `FeatureCard` lines 126-157) -/

/-- Modelled collaborator semantics: `useInView` from
react-intersection-observer with `triggerOnce: true` (the option both
components pass) latches: `inView` becomes `true` at the first observer
event that crosses the threshold and never returns to `false`. Each
component maps `inView` directly to its animation state
(`animate = inView ? shown : hidden`), so the visible state is the latch
itself, updated per event as an or-fold. -/
def inViewTriggerOnce (seen : Bool) (event : Bool) : Bool := seen || event

/-- The visible state of one animated section after each observer event,
starting hidden (`false`): the running latch values, `events.length + 1`
entries. -/
def visibleStates (events : List Bool) : List Bool :=
  events.scanl inViewTriggerOnce false

/-- The number of hidden-to-visible transitions along a sequence of
states, given the state preceding it. -/
def risingFrom (prev : Bool) : List Bool → Nat
  | [] => 0
  | b :: rest => (if prev = false ∧ b = true then 1 else 0) + risingFrom b rest

/-- The number of hidden-to-visible transitions along a sequence of
states. -/
def risingEdges : List Bool → Nat
  | [] => 0
  | b :: rest => risingFrom b rest

/-- The number of visible-to-hidden transitions along a sequence of
states, given the state preceding it. -/
def fallingFrom (prev : Bool) : List Bool → Nat
  | [] => 0
  | b :: rest => (if prev = true ∧ b = false then 1 else 0) + fallingFrom b rest

/-- The number of visible-to-hidden transitions along a sequence of
states. -/
def fallingEdges : List Bool → Nat
  | [] => 0
  | b :: rest => fallingFrom b rest

/-! ## Lemmas and claim theorems -/

lemma ratTrunc_of_nonneg {x : ℚ} (h : 0 ≤ x) : ratTrunc x = ⌊x⌋ := if_pos h

lemma floor_jsRem_div (n : Int) (c m : Nat) (hn : 0 ≤ n) :
    ⌊jsRem ((n : ℚ) / (c : ℚ)) (m : ℚ)⌋ =
      n / (c : Int) - (m : Int) * (n / ((c : Int) * (m : Int))) := by
  have h1 : (n : ℚ) / (c : ℚ) / (m : ℚ) = ((n : ℚ) / ((c * m : ℕ) : ℚ)) := by
    push_cast
    rw [div_div]
  have h2 : ratTrunc ((n : ℚ) / (c : ℚ) / (m : ℚ)) = n / ((c * m : ℕ) : Int) := by
    rw [ratTrunc_of_nonneg (by rw [h1]; positivity), h1,
      Rat.floor_intCast_div_natCast]
  rw [jsRem, h2]
  have h3 : ((m : ℚ)) * ((n / ((c * m : ℕ) : Int) : Int) : ℚ)
      = (((m : Int) * (n / ((c * m : ℕ) : Int)) : Int) : ℚ) := by
    push_cast
    ring
  rw [h3, Int.floor_sub_int, Rat.floor_intCast_div_natCast]
  push_cast
  ring

/-- On a tick with positive difference, the exact-arithmetic embedding of
`calculateTimeLeft` (rational division, `Math.floor`, JS `%`) computes the
integer floor-division and remainder breakdown of the difference. -/
lemma calculateTimeLeft_pos (launchTime nowTime : Int) (st : TimeLeft)
    (h : 0 < launchTime - nowTime) :
    calculateTimeLeft launchTime nowTime st =
      { days := (launchTime - nowTime) / 86400000
        hours := (launchTime - nowTime) / 3600000 % 24
        minutes := (launchTime - nowTime) / 60000 % 60
        seconds := (launchTime - nowTime) / 1000 % 60 } := by
  have hd : (launchTime : ℚ) - (nowTime : ℚ) = ((launchTime - nowTime : Int) : ℚ) := by
    push_cast
    ring
  have hpos : (0 : ℚ) < (launchTime : ℚ) - (nowTime : ℚ) := by
    rw [hd]
    exact_mod_cast h
  set n : Int := launchTime - nowTime with hn
  have hn0 : 0 ≤ n := le_of_lt h
  unfold calculateTimeLeft
  rw [if_pos hpos]
  have e1 : (1000 * 60 * 60 * 24 : ℚ) = ((86400000 : ℕ) : ℚ) := by norm_num
  have e2 : (1000 * 60 * 60 : ℚ) = ((3600000 : ℕ) : ℚ) := by norm_num
  have e3 : (n : ℚ) / 1000 / 60 = ((n : ℚ) / ((60000 : ℕ) : ℚ)) := by
    rw [div_div]
    norm_num
  have e4 : (1000 : ℚ) = ((1000 : ℕ) : ℚ) := by norm_num
  have e24 : (24 : ℚ) = ((24 : ℕ) : ℚ) := by norm_num
  have e60 : (60 : ℚ) = ((60 : ℕ) : ℚ) := by norm_num
  rw [hd, e1, e2, e3, e4, e24, e60, Rat.floor_intCast_div_natCast,
    floor_jsRem_div n 3600000 24 hn0,
    floor_jsRem_div n 60000 60 hn0,
    floor_jsRem_div n 1000 60 hn0]
  simp only [TimeLeft.mk.injEq]
  refine ⟨by norm_num, ?_, ?_, ?_⟩ <;> push_cast <;> omega

/-- On a tick with non-positive difference, the state is left unchanged
(the source has no `else` branch). -/
lemma calculateTimeLeft_nonpos (launchTime nowTime : Int) (st : TimeLeft)
    (h : launchTime - nowTime ≤ 0) :
    calculateTimeLeft launchTime nowTime st = st := by
  unfold calculateTimeLeft
  rw [if_neg]
  have hd : (launchTime : ℚ) - (nowTime : ℚ) = ((launchTime - nowTime : Int) : ℚ) := by
    push_cast
    ring
  rw [hd, not_lt]
  exact_mod_cast h

lemma calculateTimeLeft_nonneg (launchTime nowTime : Int) {st : TimeLeft}
    (hst : st.Nonneg) : (calculateTimeLeft launchTime nowTime st).Nonneg := by
  rcases lt_or_le 0 (launchTime - nowTime) with h | h
  · rw [calculateTimeLeft_pos launchTime nowTime st h]
    refine ⟨?_, ?_, ?_, ?_⟩ <;> simp only [] <;> omega
  · rw [calculateTimeLeft_nonpos launchTime nowTime st h]
    exact hst

lemma countdownFold_nonneg (launchTime : Int) (ticks : List Int) (st : TimeLeft)
    (hst : st.Nonneg) :
    (ticks.foldl (fun s nowTime => calculateTimeLeft launchTime nowTime s) st).Nonneg := by
  induction ticks generalizing st with
  | nil => exact hst
  | cons t ts ih => exact ih _ (calculateTimeLeft_nonneg _ _ hst)

/-- C2: at every tick where the difference `delta = target - now` in
milliseconds is strictly positive, the computed state equals
`days = ⌊delta / 86400000⌋`, `hours = ⌊delta / 3600000⌋ % 24`,
`minutes = ⌊delta / 60000⌋ % 60`, `seconds = ⌊delta / 1000⌋ % 60`
(integer floor division and remainder). -/
theorem countdown_tick_formula (launchTime nowTime : Int) (st : TimeLeft)
    (h : 0 < launchTime - nowTime) :
    calculateTimeLeft launchTime nowTime st =
      { days := (launchTime - nowTime) / 86400000
        hours := (launchTime - nowTime) / 3600000 % 24
        minutes := (launchTime - nowTime) / 60000 % 60
        seconds := (launchTime - nowTime) / 1000 % 60 } :=
  calculateTimeLeft_pos launchTime nowTime st h

/-- Witness for C2 at `difference = 90061001` ms (1 day, 1 hour, 1 minute,
1 second, 1 ms). -/
theorem countdown_tick_formula_witness :
    calculateTimeLeft 90061001 0 initialTimeLeft =
      { days := 1, hours := 1, minutes := 1, seconds := 1 } := by
  rw [countdown_tick_formula 90061001 0 initialTimeLeft (by decide)]
  decide

/-- C6: for every future target, the four countdown fields satisfy
`0 ≤ seconds < 60`, `0 ≤ minutes < 60`, `0 ≤ hours < 24`, `days ≥ 0`, and
the total milliseconds reconstructed from the four fields approximates
`target - now` from below within one tick (1000 ms). -/
theorem countdown_fields_bounded (launchTime nowTime : Int) (st : TimeLeft)
    (h : 0 < launchTime - nowTime) :
    (0 ≤ (calculateTimeLeft launchTime nowTime st).seconds ∧
        (calculateTimeLeft launchTime nowTime st).seconds < 60) ∧
    (0 ≤ (calculateTimeLeft launchTime nowTime st).minutes ∧
        (calculateTimeLeft launchTime nowTime st).minutes < 60) ∧
    (0 ≤ (calculateTimeLeft launchTime nowTime st).hours ∧
        (calculateTimeLeft launchTime nowTime st).hours < 24) ∧
    0 ≤ (calculateTimeLeft launchTime nowTime st).days ∧
    (calculateTimeLeft launchTime nowTime st).days * 86400000 +
        (calculateTimeLeft launchTime nowTime st).hours * 3600000 +
        (calculateTimeLeft launchTime nowTime st).minutes * 60000 +
        (calculateTimeLeft launchTime nowTime st).seconds * 1000 ≤ launchTime - nowTime ∧
    launchTime - nowTime -
        ((calculateTimeLeft launchTime nowTime st).days * 86400000 +
          (calculateTimeLeft launchTime nowTime st).hours * 3600000 +
          (calculateTimeLeft launchTime nowTime st).minutes * 60000 +
          (calculateTimeLeft launchTime nowTime st).seconds * 1000) < 1000 := by
  rw [calculateTimeLeft_pos launchTime nowTime st h]
  simp only []
  omega

/-- Witness for C6 at `difference = 90061001` ms. -/
theorem countdown_fields_bounded_witness :
    (0 ≤ (calculateTimeLeft 90061001 0 initialTimeLeft).seconds ∧
        (calculateTimeLeft 90061001 0 initialTimeLeft).seconds < 60) ∧
    (0 ≤ (calculateTimeLeft 90061001 0 initialTimeLeft).minutes ∧
        (calculateTimeLeft 90061001 0 initialTimeLeft).minutes < 60) ∧
    (0 ≤ (calculateTimeLeft 90061001 0 initialTimeLeft).hours ∧
        (calculateTimeLeft 90061001 0 initialTimeLeft).hours < 24) ∧
    0 ≤ (calculateTimeLeft 90061001 0 initialTimeLeft).days ∧
    (calculateTimeLeft 90061001 0 initialTimeLeft).days * 86400000 +
        (calculateTimeLeft 90061001 0 initialTimeLeft).hours * 3600000 +
        (calculateTimeLeft 90061001 0 initialTimeLeft).minutes * 60000 +
        (calculateTimeLeft 90061001 0 initialTimeLeft).seconds * 1000 ≤ 90061001 - 0 ∧
    90061001 - 0 -
        ((calculateTimeLeft 90061001 0 initialTimeLeft).days * 86400000 +
          (calculateTimeLeft 90061001 0 initialTimeLeft).hours * 3600000 +
          (calculateTimeLeft 90061001 0 initialTimeLeft).minutes * 60000 +
          (calculateTimeLeft 90061001 0 initialTimeLeft).seconds * 1000) < 1000 :=
  countdown_fields_bounded 90061001 0 initialTimeLeft (by decide)

/-- C7: over any sequence of ticks, including ticks at or after the target
instant (where the source leaves the state unchanged), no countdown field
is ever negative. -/
theorem countdown_never_negative (launchTime : Int) (ticks : List Int) :
    (countdownRun launchTime ticks).Nonneg :=
  countdownFold_nonneg launchTime ticks initialTimeLeft
    ⟨le_refl 0, le_refl 0, le_refl 0, le_refl 0⟩

lemma canSubmit_eq_true (s : PageState) (h1 : s.isSubmitting = false)
    (h2 : s.subscribed = false) (h3 : s.name ≠ "") (h4 : s.email ≠ "") :
    canSubmit s = true := by
  simp [canSubmit, h1, h2, h3, h4]

lemma step_submitClick_of_canSubmit (s : PageState) (hcs : canSubmit s = true) :
    step s Event.submitClick =
      { s with
        isSubmitting := true
        posts := s.posts ++ [addToWaitlistRequest
          { email := s.email, name := s.name, restaurantName := s.restaurantName }] } := by
  simp [step, hcs]

lemma step_submitClick_posts_of_canSubmit (s : PageState) (hcs : canSubmit s = true) :
    (step s Event.submitClick).posts =
      s.posts ++ [addToWaitlistRequest
        { email := s.email, name := s.name, restaurantName := s.restaurantName }] := by
  simp [step, hcs]

lemma step_requestResolved_posts (s : PageState) (r : ApiResult) :
    (step s (Event.requestResolved r)).posts = s.posts := by
  cases hb : s.isSubmitting <;> cases h : addToWaitlistOutcome r <;>
    simp [step, hb, h]

lemma step_requestResolved_isSubmitting (s : PageState) (r : ApiResult)
    (h : s.isSubmitting = true) :
    (step s (Event.requestResolved r)).isSubmitting = false := by
  cases ho : addToWaitlistOutcome r <;> simp [step, h, ho]

lemma addToWaitlistOutcome_error_of_ne_success (r : ApiResult)
    (hr : r ≠ ApiResult.success) :
    ∃ msg, addToWaitlistOutcome r = Except.error msg := by
  cases r with
  | success => exact absurd rfl hr
  | httpError m => cases m <;> exact ⟨_, rfl⟩
  | networkError => exact ⟨_, rfl⟩

/-- C1: a submission of the form with non-empty `name` and non-empty
`email` (and any `restaurantName`, possibly empty) issues exactly one POST
to `/auth/wait-list` with the JSON content type and a body of exactly the
submitted `email`, `name`, `restaurantName`; the resolution of the request
issues no further POST. -/
theorem submit_issues_one_post (s : PageState)
    (h1 : s.isSubmitting = false) (h2 : s.subscribed = false)
    (h3 : s.name ≠ "") (h4 : s.email ≠ "") :
    (step s Event.submitClick).posts =
      s.posts ++ [{ path := "/auth/wait-list",
                    contentType := "application/json",
                    body := { email := s.email, name := s.name,
                              restaurantName := s.restaurantName } }] ∧
    ∀ r : ApiResult,
      (step (step s Event.submitClick) (Event.requestResolved r)).posts =
        s.posts ++ [{ path := "/auth/wait-list",
                      contentType := "application/json",
                      body := { email := s.email, name := s.name,
                                restaurantName := s.restaurantName } }] := by
  have h5 := step_submitClick_of_canSubmit s (canSubmit_eq_true s h1 h2 h3 h4)
  refine ⟨by rw [h5]; rfl, fun r => ?_⟩
  rw [step_requestResolved_posts, h5]
  rfl

/-- Witness for C1 at the example input of the spec. -/
theorem submit_issues_one_post_witness :
    (step exampleState Event.submitClick).posts =
      exampleState.posts ++ [{ path := "/auth/wait-list",
                                contentType := "application/json",
                                body := { email := "jane@example.com", name := "Jane Doe",
                                          restaurantName := "" } }] ∧
    ∀ r : ApiResult,
      (step (step exampleState Event.submitClick) (Event.requestResolved r)).posts =
        exampleState.posts ++ [{ path := "/auth/wait-list",
                                  contentType := "application/json",
                                  body := { email := "jane@example.com", name := "Jane Doe",
                                            restaurantName := "" } }] :=
  submit_issues_one_post exampleState rfl rfl (by decide) (by decide)

/-- C3: when the submission succeeds, the three form fields are cleared to
`""`, the `subscribed` flag is set (so the form is replaced by the
confirmation view, page.tsx line 587), and a success toast is surfaced. -/
theorem submit_success_clears_form (s : PageState)
    (h1 : s.isSubmitting = false) (h2 : s.subscribed = false)
    (h3 : s.name ≠ "") (h4 : s.email ≠ "") :
    (step (step s Event.submitClick) (Event.requestResolved ApiResult.success)).name = "" ∧
    (step (step s Event.submitClick) (Event.requestResolved ApiResult.success)).email = "" ∧
    (step (step s Event.submitClick) (Event.requestResolved ApiResult.success)).restaurantName = "" ∧
    (step (step s Event.submitClick) (Event.requestResolved ApiResult.success)).subscribed = true ∧
    (step (step s Event.submitClick) (Event.requestResolved ApiResult.success)).toasts =
      s.toasts ++ [Toast.success successTitle successDescription] := by
  rw [step_submitClick_of_canSubmit s (canSubmit_eq_true s h1 h2 h3 h4)]
  simp [step, addToWaitlistOutcome]

/-- Counterexample to C4 as stated: for the error response body
`{message: ""}` the server did respond with a body containing a `message`
field, yet the surfaced error is the generic fallback, not the verbatim
(empty) server message — JS `||` treats `""` as falsy. -/
theorem waitlist_error_empty_message_not_verbatim :
    addToWaitlistOutcome (ApiResult.httpError (some "")) ≠ Except.error "" ∧
    addToWaitlistOutcome (ApiResult.httpError (some "")) =
      Except.error "Adding to waitlist failed" := by
  constructor
  · intro h
    simp [addToWaitlistOutcome, jsOrString] at h
  · rfl

/-- C4 (amended): when the server responds with a body whose `message`
field is a non-empty string, the error carries that message verbatim;
when the failure is at the network level with no response, the error
carries the generic connectivity fallback, not a server-derived text. -/
theorem waitlist_error_messages (m : String) (hm : m ≠ "") :
    addToWaitlistOutcome (ApiResult.httpError (some m)) = Except.error m ∧
    addToWaitlistOutcome ApiResult.networkError =
      Except.error "Adding to waitlist failed. Please check your network or try again later." := by
  refine ⟨?_, rfl⟩
  simp [addToWaitlistOutcome, jsOrString, hm]

/-- Witness for the amended C4 at the example message of the spec. -/
theorem waitlist_error_messages_witness :
    addToWaitlistOutcome (ApiResult.httpError (some "Email already registered")) =
      Except.error "Email already registered" ∧
    addToWaitlistOutcome ApiResult.networkError =
      Except.error "Adding to waitlist failed. Please check your network or try again later." :=
  waitlist_error_messages "Email already registered" (by decide)

/-- C5: when the submission fails for any reason, the three form fields
keep their prior values, the `subscribed` flag stays unset, the error is
absorbed into an error toast (the step is total — nothing propagates), and
the form is usable again: a further submit issues another POST. -/
theorem submit_failure_preserves_form (s : PageState)
    (h1 : s.isSubmitting = false) (h2 : s.subscribed = false)
    (h3 : s.name ≠ "") (h4 : s.email ≠ "") (r : ApiResult)
    (hr : r ≠ ApiResult.success) :
    (step (step s Event.submitClick) (Event.requestResolved r)).name = s.name ∧
    (step (step s Event.submitClick) (Event.requestResolved r)).email = s.email ∧
    (step (step s Event.submitClick) (Event.requestResolved r)).restaurantName = s.restaurantName ∧
    (step (step s Event.submitClick) (Event.requestResolved r)).subscribed = false ∧
    (step (step s Event.submitClick) (Event.requestResolved r)).isSubmitting = false ∧
    (∃ msg, (step (step s Event.submitClick) (Event.requestResolved r)).toasts =
      s.toasts ++ [Toast.error failureTitle msg]) ∧
    (step (step (step s Event.submitClick) (Event.requestResolved r)) Event.submitClick).posts =
      (step (step s Event.submitClick) (Event.requestResolved r)).posts ++
        [addToWaitlistRequest
          { email := s.email, name := s.name, restaurantName := s.restaurantName }] := by
  obtain ⟨msg, hmsg⟩ := addToWaitlistOutcome_error_of_ne_success r hr
  rw [step_submitClick_of_canSubmit s (canSubmit_eq_true s h1 h2 h3 h4)]
  have hres : step
      { s with
        isSubmitting := true
        posts := s.posts ++ [addToWaitlistRequest
          { email := s.email, name := s.name, restaurantName := s.restaurantName }] }
      (Event.requestResolved r) =
      { s with
        isSubmitting := false
        posts := s.posts ++ [addToWaitlistRequest
          { email := s.email, name := s.name, restaurantName := s.restaurantName }]
        toasts := s.toasts ++ [Toast.error failureTitle msg] } := by
    simp [step, hmsg]
  rw [hres]
  refine ⟨rfl, rfl, rfl, h2, rfl, ⟨msg, rfl⟩, ?_⟩
  exact step_submitClick_posts_of_canSubmit _ (by simp [canSubmit, h2, h3, h4])

/-- Witness for C5 at the example failure response of the spec. -/
theorem submit_failure_preserves_form_witness :
    (step (step exampleState Event.submitClick)
      (Event.requestResolved (ApiResult.httpError (some "Email already registered")))).name = exampleState.name ∧
    (step (step exampleState Event.submitClick)
      (Event.requestResolved (ApiResult.httpError (some "Email already registered")))).email = exampleState.email ∧
    (step (step exampleState Event.submitClick)
      (Event.requestResolved (ApiResult.httpError (some "Email already registered")))).restaurantName = exampleState.restaurantName ∧
    (step (step exampleState Event.submitClick)
      (Event.requestResolved (ApiResult.httpError (some "Email already registered")))).subscribed = false ∧
    (step (step exampleState Event.submitClick)
      (Event.requestResolved (ApiResult.httpError (some "Email already registered")))).isSubmitting = false ∧
    (∃ msg, (step (step exampleState Event.submitClick)
      (Event.requestResolved (ApiResult.httpError (some "Email already registered")))).toasts =
        exampleState.toasts ++ [Toast.error failureTitle msg]) ∧
    (step (step (step exampleState Event.submitClick)
      (Event.requestResolved (ApiResult.httpError (some "Email already registered")))) Event.submitClick).posts =
      (step (step exampleState Event.submitClick)
        (Event.requestResolved (ApiResult.httpError (some "Email already registered")))).posts ++
          [addToWaitlistRequest
            { email := "jane@example.com", name := "Jane Doe", restaurantName := "" }] :=
  submit_failure_preserves_form exampleState rfl rfl (by decide) (by decide)
    (ApiResult.httpError (some "Email already registered")) (by decide)

/-- C8: while a submission is outstanding (`isSubmitting = true`), the
submit control is disabled, so re-invoking submit changes nothing and in
particular issues no second POST. -/
theorem submit_noop_while_outstanding (s : PageState)
    (h : s.isSubmitting = true) :
    step s Event.submitClick = s := by
  simp [step, canSubmit, h]

/-- Witness for C8: a second click while the example submission is
outstanding is a no-op. -/
theorem submit_noop_while_outstanding_witness :
    step (step exampleState Event.submitClick) Event.submitClick =
      step exampleState Event.submitClick :=
  submit_noop_while_outstanding (step exampleState Event.submitClick) rfl

/-- C10: every submission attempt sets `isSubmitting` at its start and the
`finally` block resets it when the attempt resolves, on the success path
and on every failure path alike. -/
theorem submitting_flag_lifecycle (s : PageState)
    (h1 : s.isSubmitting = false) (h2 : s.subscribed = false)
    (h3 : s.name ≠ "") (h4 : s.email ≠ "") :
    (step s Event.submitClick).isSubmitting = true ∧
    ∀ r : ApiResult,
      (step (step s Event.submitClick) (Event.requestResolved r)).isSubmitting = false := by
  have h5 := step_submitClick_of_canSubmit s (canSubmit_eq_true s h1 h2 h3 h4)
  constructor
  · rw [h5]
  · intro r
    apply step_requestResolved_isSubmitting
    rw [h5]

/-- Witness for C10 at the example state, resolving with a network
failure. -/
theorem submitting_flag_lifecycle_witness :
    (step exampleState Event.submitClick).isSubmitting = true ∧
    ∀ r : ApiResult,
      (step (step exampleState Event.submitClick) (Event.requestResolved r)).isSubmitting = false :=
  submitting_flag_lifecycle exampleState rfl rfl (by decide) (by decide)

/-- Witness for C3 at the spec example input. -/
theorem submit_success_clears_form_witness :
    (step (step exampleState Event.submitClick) (Event.requestResolved ApiResult.success)).name = "" ∧
    (step (step exampleState Event.submitClick) (Event.requestResolved ApiResult.success)).email = "" ∧
    (step (step exampleState Event.submitClick) (Event.requestResolved ApiResult.success)).restaurantName = "" ∧
    (step (step exampleState Event.submitClick) (Event.requestResolved ApiResult.success)).subscribed = true ∧
    (step (step exampleState Event.submitClick) (Event.requestResolved ApiResult.success)).toasts =
      exampleState.toasts ++ [Toast.success successTitle successDescription] :=
  submit_success_clears_form exampleState rfl rfl (by decide) (by decide)

lemma fallingFrom_scanl (prev st : Bool) (hp : prev = true → st = true)
    (events : List Bool) :
    fallingFrom prev (events.scanl inViewTriggerOnce st) = 0 := by
  induction events generalizing prev st with
  | nil =>
      cases prev with
      | false => simp [List.scanl, fallingFrom]
      | true => simp [List.scanl, fallingFrom, hp rfl]
  | cons e es ih =>
      cases prev with
      | false =>
          simp only [List.scanl, fallingFrom, inViewTriggerOnce]
          simpa using ih st (st || e) (by intro h; simp [h])
      | true =>
          have hst := hp rfl
          subst hst
          simp only [List.scanl, fallingFrom, inViewTriggerOnce]
          simpa using ih true (true || e) (by simp)

lemma risingFrom_scanl (prev st : Bool) (hp : prev = true → st = true)
    (events : List Bool) :
    risingFrom prev (events.scanl inViewTriggerOnce st) =
      if prev then 0 else (if st || events.any id then 1 else 0) := by
  induction events generalizing prev st with
  | nil =>
      cases prev with
      | false => cases st <;> simp [List.scanl, risingFrom]
      | true => simp [List.scanl, risingFrom, hp rfl]
  | cons e es ih =>
      cases prev with
      | false =>
          cases st with
          | false =>
              simp only [List.scanl, risingFrom, inViewTriggerOnce]
              simpa using ih false (false || e) (by simp)
          | true =>
              simp only [List.scanl, risingFrom, inViewTriggerOnce]
              simpa using ih true (true || e) (by simp)
      | true =>
          have hst := hp rfl
          subst hst
          simp only [List.scanl, risingFrom, inViewTriggerOnce]
          simpa using ih true (true || e) (by simp)

lemma fallingEdges_scanl (st : Bool) (events : List Bool) :
    fallingEdges (events.scanl inViewTriggerOnce st) = 0 := by
  cases events with
  | nil => rfl
  | cons e es =>
      simp only [List.scanl, fallingEdges, inViewTriggerOnce]
      exact fallingFrom_scanl st (st || e) (by intro h; simp [h]) es

lemma risingEdges_scanl (events : List Bool) :
    risingEdges (events.scanl inViewTriggerOnce false) =
      (if events.any id then 1 else 0) := by
  cases events with
  | nil => rfl
  | cons e es =>
      simp only [List.scanl, risingEdges, inViewTriggerOnce]
      simpa using risingFrom_scanl false (false || e) (by simp) es

lemma scanl_inView_getD (st : Bool) (events : List Bool) (k : Nat)
    (hk : k ≤ events.length) :
    (events.scanl inViewTriggerOnce st).getD k false =
      (st || (events.take k).any id) := by
  induction events generalizing st k with
  | nil =>
      have hk0 : k = 0 := Nat.le_zero.mp (by simpa using hk)
      subst hk0
      simp [List.scanl]
  | cons e es ih =>
      cases k with
      | zero => simp [List.scanl]
      | succ k =>
          have hk2 : k ≤ es.length := by simpa using hk
          have h2 := ih (st || e) k hk2
          simp only [List.scanl, List.getD_cons_succ, h2, List.take_succ_cons,
            List.any_cons, id, inViewTriggerOnce, Bool.or_assoc]

/-- C9: an entrance-animated section starts hidden, never transitions back
from visible to hidden, transitions from hidden to visible exactly once
when some observer event crosses the threshold (and never otherwise), and
after any `k` events it is visible exactly when the threshold was crossed
within the first `k` events — i.e. the transition happens at the first
crossing and never replays. -/
theorem animated_section_one_shot (events : List Bool) (k : Nat)
    (hk : k ≤ events.length) :
    fallingEdges (visibleStates events) = 0 ∧
    risingEdges (visibleStates events) = (if events.any id then 1 else 0) ∧
    (visibleStates events).getD k false = (events.take k).any id := by
  refine ⟨fallingEdges_scanl false events, risingEdges_scanl events, ?_⟩
  simpa using scanl_inView_getD false events k hk

/-- Witness for C9: two scroll events past the threshold, state inspected
after the first. -/
theorem animated_section_one_shot_witness :
    fallingEdges (visibleStates [true, true]) = 0 ∧
    risingEdges (visibleStates [true, true]) = (if [true, true].any id then 1 else 0) ∧
    (visibleStates [true, true]).getD 1 false = ([true, true].take 1).any id :=
  animated_section_one_shot [true, true] 1 (by decide)

end ScanAndSnack
